import Mathlib

/-!
# The Python binding of the tensor runtime

A shallow embedding of `fast_transformers/python/pybind.cpp`: the capsule
destructor `DLPack_Capsule_Destructor`, the two exchange entry points
`Tensor.from_dlpack` and `Tensor.to_dlpack`, and the constructor and
`__call__` lambdas of the five layer classes.

C++ objects that a function receives by reference and may change are passed
in and handed back (explicit state passing).  A pointer is an `Option`:
`none` is the null pointer.  What the interpreter keeps across calls (the
error indicator, and the record of every deleter invocation) is `PyState`.
-/

namespace fast_transformers

/-! ## The exchange descriptor -/

/-- The element type of a descriptor: type code, width in bits, vector lanes. -/
structure DLDataType where
  code : Nat
  bits : Nat
  lanes : Nat
deriving DecidableEq, Repr

/-- Type code of IEEE floating point in a descriptor. -/
def kDLFloat : Nat := 2

/-- Modelled from the spec: the cross-runtime tensor descriptor (its header is
not among the sources): "a standard descriptor containing device info, dtype
code, shape, strides, a raw data pointer, and a deleter callback".  `strides`
is `none` when the producer left the strides pointer null; `data` is the
address of the buffer; `deleter` names the callback. -/
structure DLManagedTensor where
  device : Nat
  dtype : DLDataType
  shape : List Int
  strides : Option (List Int)
  data : Nat
  deleter : Nat
deriving DecidableEq, Repr

/-- The failures a call can end in: the failure taxonomy of the runtime, and
the `std::runtime_error` that `pybind11_fail` throws. -/
inductive Error where
  | InvalidShape
  | DtypeMismatch
  | InvalidHandle
  | InvalidConfig
  | IndexOutOfRange
  | runtime_error (what : String)
deriving DecidableEq, Repr

/-! ## The interpreter state and the capsule object -/

/-- What persists between calls: the interpreter's error indicator, and the
argument of every deleter invocation made so far, oldest first. -/
structure PyState where
  err : Bool
  deleted : List DLManagedTensor
deriving DecidableEq, Repr

/-- The destructors a capsule can carry.  The binding attaches only one. -/
inductive PyCapsule_Destructor where
  | DLPack_Capsule_Destructor
deriving DecidableEq, Repr

/-- A capsule object of the interpreter: the pointer it holds, its name (the
tag of the exchange handle), and its destructor. -/
structure PyCapsule where
  pointer : Option DLManagedTensor
  name : Option String
  destructor : Option PyCapsule_Destructor
deriving DecidableEq, Repr

/-- C-API helper: a capsule is legal when the pointer it holds is not null. -/
def is_legal_capsule (capsule : PyCapsule) : Bool :=
  capsule.pointer.isSome

/-- C-API helper: two names match when both are null or both spell the same
string. -/
def name_matches (name1 name2 : Option String) : Bool :=
  match name1, name2 with
  | some a, some b => a == b
  | none, none => true
  | _, _ => false

/-- C-API `PyErr_Clear`: drops a pending error. -/
def PyErr_Clear (s : PyState) : PyState :=
  { s with err := false }

/-- C-API `PyErr_SetString`: leaves an error pending. -/
def PyErr_SetString (s : PyState) : PyState :=
  { s with err := true }

/-- C-API `PyCapsule_New`: refuses a null pointer, otherwise builds the
capsule. -/
def PyCapsule_New (pointer : Option DLManagedTensor) (name : Option String)
    (destructor : Option PyCapsule_Destructor) (s : PyState) :
    Option PyCapsule × PyState :=
  match pointer with
  | none => (none, PyErr_SetString s)
  | some p => (some ⟨some p, name, destructor⟩, s)

/-- C-API `PyCapsule_GetPointer`: the pointer of a legal capsule whose name
matches; otherwise null, with an error left pending. -/
def PyCapsule_GetPointer (o : PyCapsule) (name : Option String) (s : PyState) :
    Option DLManagedTensor × PyState :=
  if !is_legal_capsule o then (none, PyErr_SetString s)
  else if !name_matches name o.name then (none, PyErr_SetString s)
  else (o.pointer, s)

/-- C-API `PyCapsule_GetName`: the name of a legal capsule. -/
def PyCapsule_GetName (o : PyCapsule) (s : PyState) : Option String × PyState :=
  if !is_legal_capsule o then (none, PyErr_SetString s)
  else (o.name, s)

/-- C-API `PyCapsule_SetName`: renames a legal capsule. -/
def PyCapsule_SetName (o : PyCapsule) (name : Option String) (s : PyState) :
    PyCapsule × PyState :=
  if !is_legal_capsule o then (o, PyErr_SetString s)
  else ({ o with name := name }, s)

/-- The conversion `(DLManagedTensor *)(capsule)` of the binding library:
reads the pointer under the capsule's own name, whatever that name is, and
throws when it gets null. -/
def capsule_cast (capsule : PyCapsule) (s : PyState) :
    Except Error DLManagedTensor × PyState :=
  let r := PyCapsule_GetName capsule s
  let q := PyCapsule_GetPointer capsule r.1 r.2
  match q.1 with
  | none => (.error (.runtime_error "Unable to extract capsule contents!"), q.2)
  | some result => (.ok result, q.2)

/-- The constructor `py::capsule(value, name, destructor)` of the binding
library: a new capsule, or a throw when none could be made. -/
def py_capsule (value : Option DLManagedTensor) (name : Option String)
    (destructor : Option PyCapsule_Destructor) (s : PyState) :
    Except Error PyCapsule × PyState :=
  let r := PyCapsule_New value name destructor s
  match r.1 with
  | none => (.error (.runtime_error "Could not allocate capsule object!"), r.2)
  | some m_ptr => (.ok m_ptr, r.2)

/-- The call `tensor->deleter(tensor)`: the callback belongs to the producer of
the descriptor, so all that is kept of it is that it ran, and on what. -/
def call_deleter (tensor : DLManagedTensor) (s : PyState) : PyState :=
  { s with deleted := s.deleted ++ [tensor] }

/-! ## The Tensor class -/

/-- The one element type the runtime supports: 32-bit IEEE float. -/
def is_float32 (t : DLDataType) : Bool :=
  t.code == kDLFloat && t.bits == 32 && t.lanes == 1

/-- Strides of the contiguous row-major layout of a shape. -/
def row_major_strides : List Int → List Int
  | [] => []
  | _ :: rest => rest.prod :: row_major_strides rest

/-- A descriptor is contiguous when it gives no strides or the row-major
ones. -/
def is_contiguous (d : DLManagedTensor) : Bool :=
  match d.strides with
  | none => true
  | some st => st == row_major_strides d.shape

/-- Modelled from the spec: the class `core::Tensor` (core/tensor.h is not
among the sources): a Tensor owns the descriptor of its buffer, and owns none
once "ownership has been transferred away". -/
structure Tensor where
  tensor_ : Option DLManagedTensor
deriving DecidableEq, Repr

/-- Modelled from the spec: the constructor `core::Tensor(DLManagedTensor *)`
(core/tensor.h is not among the sources), the spec's ImportExternal: "takes
ownership of an externally managed buffer", and "fails with InvalidHandle if
the descriptor's dtype is unsupported or strides indicate non-contiguous
layout". -/
def Tensor.ImportExternal (tensor : DLManagedTensor) : Except Error Tensor :=
  if is_float32 tensor.dtype && is_contiguous tensor then .ok ⟨some tensor⟩
  else .error .InvalidHandle

/-- Modelled from the spec: `core::Tensor::ToDLPack` (core/tensor.h is not
among the sources), the spec's ExportExternal: "produces a descriptor usable
by another owner; transfers ownership out of the Tensor (the Tensor becomes
invalid for further use on this path)"; use of a Tensor that owns nothing
"must be converted to a detectable failure".  The Tensor after the call is
the second component. -/
def Tensor.ToDLPack (t : Tensor) : Except Error DLManagedTensor × Tensor :=
  match t.tensor_ with
  | some d => (.ok d, ⟨none⟩)
  | none => (.error .InvalidHandle, t)

/-- Modelled from the spec: `core::Tensor::n_dim` (core/tensor.h is not among
the sources), the spec's Rank accessor. -/
def Tensor.n_dim (t : Tensor) : Option Nat :=
  t.tensor_.map fun d => d.shape.length

/-- Modelled from the spec: `core::Tensor::shape` (core/tensor.h is not among
the sources), the spec's Shape accessor. -/
def Tensor.shape (t : Tensor) : Option (List Int) :=
  t.tensor_.map fun d => d.shape

/-- Modelled from the spec: the destructor of `core::Tensor` (core/tensor.h is
not among the sources): "if the Tensor wraps an external buffer, destruction
invokes the external deleter exactly once". -/
def Tensor.destroy (t : Tensor) (s : PyState) : PyState :=
  match t.tensor_ with
  | some d => call_deleter d s
  | none => s

namespace python

/-! ## The exchange entry points (pybind.cpp, lines 17 to 46) -/

/-- The capsule destructor of pybind.cpp, lines 17 to 28. -/
def DLPack_Capsule_Destructor (data : PyCapsule) (s : PyState) : PyState :=
  let r := PyCapsule_GetPointer data (some "dltensor") s
  match r.1 with
  | some dlMTensor =>
    -- the dlMTensor has not been consumed, call deleter ourselves
    call_deleter dlMTensor r.2
  | none =>
    -- the dlMTensor has been consumed
    -- PyCapsule_GetPointer has set an error indicator
    PyErr_Clear r.2

/-- The interpreter freeing a capsule object: runs the destructor the capsule
carries, if it carries one. -/
def capsule_dealloc (o : PyCapsule) (s : PyState) : PyState :=
  match o.destructor with
  | some .DLPack_Capsule_Destructor => DLPack_Capsule_Destructor o s
  | none => s

/-- What a call of `Tensor.from_dlpack` leaves: the Tensor or the failure, the
capsule as the call left it, and the interpreter state. -/
structure FromDLPackOutcome where
  result : Except Error Tensor
  capsule : PyCapsule
  state : PyState

/-- The static method `Tensor.from_dlpack` of pybind.cpp, lines 36 to 41. -/
def from_dlpack (capsule : PyCapsule) (s : PyState) : FromDLPackOutcome :=
  match capsule_cast capsule s with
  | (.error e, s1) => ⟨.error e, capsule, s1⟩
  | (.ok tensor, s1) =>
    let r := PyCapsule_SetName capsule (some "used_tensor") s1
    ⟨Tensor.ImportExternal tensor, r.1, r.2⟩

/-- What a call of `Tensor.to_dlpack` leaves: the new capsule or the failure,
the Tensor as the call left it, and the interpreter state. -/
structure ToDLPackOutcome where
  result : Except Error PyCapsule
  tensor : Tensor
  state : PyState

/-- The method `Tensor.to_dlpack` of pybind.cpp, lines 42 to 46. -/
def to_dlpack (tensor : Tensor) (s : PyState) : ToDLPackOutcome :=
  match tensor.ToDLPack with
  | (.error e, tensor1) => ⟨.error e, tensor1, s⟩
  | (.ok dlpack, tensor1) =>
    let r := py_capsule (some dlpack) (some "dltensor")
      (some .DLPack_Capsule_Destructor) s
    ⟨r.1, tensor1, r.2⟩

/-! ## The layer classes (pybind.cpp, lines 51 to 131)

The native layer classes are not among the sources, so every lambda takes the
native constructor, or the native call operator, it forwards to as its first
argument. -/

/-- A C float, by its bit pattern. -/
structure CFloat where
  bits : Nat
deriving DecidableEq, Repr

/-- What `std::move(x)` hands to a callee: the caller's object `x` itself, as
an rvalue, which the callee may take the contents of. -/
structure RValue (α : Type) where
  ref : α
deriving DecidableEq, Repr

/-- The cast `std::move`. -/
def std_move {α : Type} (x : α) : RValue α := ⟨x⟩

/-- What a call operator that was handed references leaves: the value it
returns, the layer object after the call, and the caller's argument objects
after the call, in the order they were passed. -/
structure Outcome (L R : Type) where
  result : R
  self : L
  args : List Tensor

/-- The constructor lambda of `BERTEmbedding`, lines 52 to 61. -/
def BERTEmbedding.__init__ {L : Type}
    (BERTEmbedding :
      RValue Tensor → RValue Tensor → RValue Tensor → RValue Tensor → RValue Tensor → CFloat → L)
    (word_embeddings position_embeddings token_type_embeddings layer_norm_weights
      layer_norm_bias : Tensor) (dropout_rate : CFloat) : L :=
  BERTEmbedding (std_move word_embeddings) (std_move position_embeddings)
    (std_move token_type_embeddings) (std_move layer_norm_weights)
    (std_move layer_norm_bias) dropout_rate

/-- The `__call__` lambda of `BERTEmbedding`, lines 62 to 67. -/
def BERTEmbedding.__call__ {L R : Type}
    (operator_call : L → RValue Tensor → RValue Tensor → RValue Tensor → Outcome L R)
    (self : L) (input_ids token_type_ids position_ids : Tensor) : Outcome L R :=
  operator_call self (std_move input_ids) (std_move token_type_ids) (std_move position_ids)

/-- The constructor lambda of `BertAttention`, lines 70 to 83. -/
def BertAttention.__init__ {L : Type}
    (BertAttention :
      RValue Tensor → RValue Tensor → RValue Tensor → RValue Tensor → RValue Tensor →
      RValue Tensor → RValue Tensor → RValue Tensor → RValue Tensor → RValue Tensor → Int → L)
    (query_weight query_bias key_weight key_bias value_weight value_bias dense_weight
      dense_bias layer_norm_weight layer_norm_bias : Tensor) (num_attention_heads : Int) : L :=
  BertAttention (std_move query_weight) (std_move query_bias)
    (std_move key_weight) (std_move key_bias) (std_move value_weight)
    (std_move value_bias) (std_move dense_weight)
    (std_move dense_bias) (std_move layer_norm_weight)
    (std_move layer_norm_bias) num_attention_heads

/-- The `__call__` lambda of `BertAttention`, lines 84 to 89. -/
def BertAttention.__call__ {L R : Type}
    (operator_call : L → RValue Tensor → RValue Tensor → RValue Tensor → Outcome L R)
    (self : L) (input_tensor attention_mask head_mask : Tensor) : Outcome L R :=
  operator_call self (std_move input_tensor) (std_move attention_mask) (std_move head_mask)

/-- The constructor lambda of `BertSelfAttention`, lines 92 to 101. -/
def BertSelfAttention.__init__ {L : Type}
    (BertSelfAttention :
      RValue Tensor → RValue Tensor → RValue Tensor → RValue Tensor → RValue Tensor →
      RValue Tensor → Int → L)
    (qkv_weight qkv_bias dense_weight dense_bias layer_norm_weight layer_norm_bias : Tensor)
    (num_attention_heads : Int) : L :=
  BertSelfAttention (std_move qkv_weight) (std_move qkv_bias) (std_move dense_weight)
    (std_move dense_bias) (std_move layer_norm_weight)
    (std_move layer_norm_bias) num_attention_heads

/-- The `__call__` lambda of `BertSelfAttention`, lines 102 to 107. -/
def BertSelfAttention.__call__ {L R : Type}
    (operator_call : L → RValue Tensor → RValue Tensor → RValue Tensor → Outcome L R)
    (self : L) (input_tensor attention_mask head_mask : Tensor) : Outcome L R :=
  operator_call self (std_move input_tensor) (std_move attention_mask) (std_move head_mask)

/-- The constructor lambda of `BertIntermediate`, lines 110 to 114. -/
def BertIntermediate.__init__ {L : Type}
    (BertIntermediate : RValue Tensor → RValue Tensor → L)
    (dense_weight dense_bias : Tensor) : L :=
  BertIntermediate (std_move dense_weight) (std_move dense_bias)

/-- The `__call__` lambda of `BertIntermediate`, lines 115 to 118. -/
def BertIntermediate.__call__ {L R : Type}
    (operator_call : L → RValue Tensor → Outcome L R)
    (self : L) (input_tensor : Tensor) : Outcome L R :=
  operator_call self (std_move input_tensor)

/-- The constructor lambda of `BertOutput`, lines 121 to 127. -/
def BertOutput.__init__ {L : Type}
    (BertOutput : RValue Tensor → RValue Tensor → RValue Tensor → RValue Tensor → L)
    (dense_weight dense_bias layer_norm_weight layer_norm_bias : Tensor) : L :=
  BertOutput (std_move dense_weight) (std_move dense_bias)
    (std_move layer_norm_weight) (std_move layer_norm_bias)

/-- The `__call__` lambda of `BertOutput`, lines 128 to 131. -/
def BertOutput.__call__ {L R : Type}
    (operator_call : L → RValue Tensor → RValue Tensor → Outcome L R)
    (self : L) (hidden_states input_tensor : Tensor) : Outcome L R :=
  operator_call self (std_move hidden_states) (std_move input_tensor)

/-- Modelled from the spec: the call operator of a native layer that takes one
input (the layer classes are not among the sources).  Layers "borrow (do not
own) the activation Tensors", "layer invocations are pure functions of
(weights, inputs) with no hidden cross-call state", and "no invocation mutates
a weight Tensor": the operator returns what the layer's function `f` computes
and leaves the layer and the caller's Tensor as they were. -/
def borrowing1 {L R : Type} (f : L → Tensor → R) : L → RValue Tensor → Outcome L R :=
  fun self a => ⟨f self a.ref, self, [a.ref]⟩

/-- Modelled from the spec: the call operator of a native layer that takes two
inputs (the layer classes are not among the sources); see `borrowing1`. -/
def borrowing2 {L R : Type} (f : L → Tensor → Tensor → R) :
    L → RValue Tensor → RValue Tensor → Outcome L R :=
  fun self a b => ⟨f self a.ref b.ref, self, [a.ref, b.ref]⟩

/-- Modelled from the spec: the call operator of a native layer that takes
three inputs (the layer classes are not among the sources); see
`borrowing1`. -/
def borrowing3 {L R : Type} (f : L → Tensor → Tensor → Tensor → R) :
    L → RValue Tensor → RValue Tensor → RValue Tensor → Outcome L R :=
  fun self a b c => ⟨f self a.ref b.ref c.ref, self, [a.ref, b.ref, c.ref]⟩

/-! ## Sequences of binding operations

Programs that apply binding operations one after another: the capsule objects
the interpreter has made so far, by handle, and the operations a program can
apply to them. -/

/-- The capsule objects made so far, indexed by handle (`none` once the object
has been freed), and the interpreter state. -/
structure Interp where
  objs : List (Option PyCapsule)
  state : PyState

/-- One binding operation: export a Tensor, import the capsule behind a
handle, or free the capsule behind a handle. -/
inductive Op where
  | to_dlpack (t : Tensor)
  | from_dlpack (h : Nat)
  | destroy (h : Nat)
deriving DecidableEq, Repr

/-- The live capsule behind a handle, if there is one. -/
def Interp.capsule (m : Interp) (h : Nat) : Option PyCapsule :=
  (m.objs[h]?).join

/-- The interpreter before any operation. -/
def Interp.init : Interp := ⟨[], ⟨false, []⟩⟩

/-- Effect of one operation.  A new capsule gets the next unused handle; an
operation on a handle with no live capsule behind it cannot be written in the
host language and changes nothing. -/
def Interp.step (m : Interp) : Op → Interp
  | .to_dlpack t =>
    let r := to_dlpack t m.state
    match r.result with
    | .ok c => ⟨m.objs ++ [some c], r.state⟩
    | .error _ => ⟨m.objs, r.state⟩
  | .from_dlpack h =>
    match m.capsule h with
    | some c =>
      let r := from_dlpack c m.state
      ⟨m.objs.set h (some r.capsule), r.state⟩
    | none => m
  | .destroy h =>
    match m.capsule h with
    | some c => ⟨m.objs.set h none, capsule_dealloc c m.state⟩
    | none => m

/-- Effect of a sequence of operations, first to last. -/
def Interp.run (m : Interp) (ops : List Op) : Interp :=
  ops.foldl Interp.step m

/-- A capsule that is an exchange handle: it holds a descriptor and its tag is
"dltensor" or "used_tensor". -/
def exchange_handle (c : PyCapsule) : Prop :=
  c.pointer.isSome = true ∧ (c.name = some "dltensor" ∨ c.name = some "used_tensor")

/-- A handle that has been allotted and whose capsule, if it is still live, is
tagged "used_tensor". -/
def spent (m : Interp) (h : Nat) : Prop :=
  h < m.objs.length ∧ ∀ c, m.capsule h = some c → c.name = some "used_tensor"

/-! ## Concrete inputs -/

/-- A descriptor of a contiguous 2 by 3 buffer of 32-bit floats. -/
def float32_descriptor : DLManagedTensor :=
  ⟨1, ⟨kDLFloat, 32, 1⟩, [2, 3], some [3, 1], 4096, 7⟩

/-- A descriptor of a contiguous 2 by 3 buffer of 64-bit floats. -/
def float64_descriptor : DLManagedTensor :=
  ⟨1, ⟨kDLFloat, 64, 1⟩, [2, 3], some [3, 1], 8192, 7⟩

/-- A descriptor of 32-bit floats laid out column-major. -/
def transposed_descriptor : DLManagedTensor :=
  ⟨1, ⟨kDLFloat, 32, 1⟩, [2, 3], some [1, 2], 4096, 7⟩

/-- An unused exchange handle, as another runtime's export makes it. -/
def unused_capsule (d : DLManagedTensor) : PyCapsule :=
  ⟨some d, some "dltensor", some .DLPack_Capsule_Destructor⟩

/-- An interpreter state with no error pending and no deleter run yet. -/
def quiet : PyState := ⟨false, []⟩

/-! ## Lemmas on the capsule functions and on sequences of operations -/

theorem name_matches_self (n : Option String) : name_matches n n = true := by
  cases n <;> simp [name_matches]

theorem name_matches_iff (a b : Option String) : name_matches a b = true ↔ a = b := by
  cases a <;> cases b <;> simp [name_matches]

theorem capsule_cast_legal (c : PyCapsule) (d : DLManagedTensor) (s : PyState)
    (hd : c.pointer = some d) : capsule_cast c s = (.ok d, s) := by
  simp [capsule_cast, PyCapsule_GetName, PyCapsule_GetPointer, is_legal_capsule, hd,
    name_matches_self]

theorem from_dlpack_legal (c : PyCapsule) (d : DLManagedTensor) (s : PyState)
    (hd : c.pointer = some d) :
    from_dlpack c s = ⟨Tensor.ImportExternal d, { c with name := some "used_tensor" }, s⟩ := by
  simp [from_dlpack, capsule_cast_legal c d s hd, PyCapsule_SetName, is_legal_capsule, hd]

theorem from_dlpack_illegal (c : PyCapsule) (s : PyState) (hd : c.pointer = none) :
    (from_dlpack c s).capsule = c ∧ (from_dlpack c s).state.deleted = s.deleted ∧
      (from_dlpack c s).result =
        .error (.runtime_error "Unable to extract capsule contents!") := by
  simp [from_dlpack, capsule_cast, PyCapsule_GetName, PyCapsule_GetPointer, is_legal_capsule,
    hd, PyErr_SetString]

theorem destructor_consumed (c : PyCapsule) (s : PyState) (hn : c.name ≠ some "dltensor") :
    DLPack_Capsule_Destructor c s = ⟨false, s.deleted⟩ := by
  have hm : name_matches (some "dltensor") c.name = false := by
    rw [Bool.eq_false_iff, Ne, name_matches_iff]
    exact fun h => hn h.symm
  unfold DLPack_Capsule_Destructor PyCapsule_GetPointer
  cases hp : is_legal_capsule c <;> simp [hm, PyErr_Clear, PyErr_SetString]

theorem destructor_unconsumed (c : PyCapsule) (d : DLManagedTensor) (s : PyState)
    (hd : c.pointer = some d) (hn : c.name = some "dltensor") :
    DLPack_Capsule_Destructor c s = call_deleter d s := by
  simp [DLPack_Capsule_Destructor, PyCapsule_GetPointer, is_legal_capsule, hd, hn,
    name_matches]

theorem to_dlpack_owner (t : Tensor) (d : DLManagedTensor) (s : PyState)
    (hd : t.ToDLPack.1 = .ok d) :
    to_dlpack t s = ⟨.ok (unused_capsule d), ⟨none⟩, s⟩ := by
  unfold Tensor.ToDLPack at hd
  cases ht : t.tensor_ with
  | none => rw [ht] at hd; cases hd
  | some e =>
    rw [ht] at hd
    cases hd
    simp [to_dlpack, Tensor.ToDLPack, ht, py_capsule, PyCapsule_New, unused_capsule]

theorem to_dlpack_result (t : Tensor) (s : PyState) :
    (∃ d, (to_dlpack t s).result = .ok (unused_capsule d)) ∨
      ∃ e, (to_dlpack t s).result = .error e := by
  cases ht : t.tensor_ with
  | none => right; exact ⟨.InvalidHandle, by simp [to_dlpack, Tensor.ToDLPack, ht]⟩
  | some d =>
    left
    exact ⟨d, by simp [to_dlpack, Tensor.ToDLPack, ht, py_capsule, PyCapsule_New, unused_capsule]⟩

theorem capsule_fresh (m : Interp) : m.capsule m.objs.length = none := by
  simp [Interp.capsule]

theorem capsule_of_live (m : Interp) (h : Nat) (c : PyCapsule) (hc : m.capsule h = some c) :
    h < m.objs.length := by
  by_contra hlt
  have : m.objs[h]? = none := List.getElem?_eq_none (not_lt.mp hlt)
  simp [Interp.capsule, this] at hc

theorem step_to_dlpack_capsule (m : Interp) (t : Tensor) (h : Nat) (hlt : h < m.objs.length) :
    (m.step (.to_dlpack t)).capsule h = m.capsule h ∧
      h < (m.step (.to_dlpack t)).objs.length := by
  unfold Interp.step
  cases hr : (to_dlpack t m.state).result with
  | error e => simp [Interp.capsule, hr, hlt]
  | ok c =>
    simp only [hr, Interp.capsule, List.length_append, List.length_singleton]
    rw [List.getElem?_append_left hlt]
    exact ⟨rfl, by omega⟩

theorem step_from_dlpack_live (m : Interp) (h : Nat) (c : PyCapsule)
    (hc : m.capsule h = some c) :
    m.step (.from_dlpack h) =
      ⟨m.objs.set h (some (from_dlpack c m.state).capsule), (from_dlpack c m.state).state⟩ := by
  simp only [Interp.step, hc]

theorem step_destroy_live (m : Interp) (h : Nat) (c : PyCapsule)
    (hc : m.capsule h = some c) :
    m.step (.destroy h) = ⟨m.objs.set h none, capsule_dealloc c m.state⟩ := by
  simp only [Interp.step, hc]

theorem step_dead (m : Interp) (h : Nat) (hc : m.capsule h = none) :
    m.step (.from_dlpack h) = m ∧ m.step (.destroy h) = m := by
  simp only [Interp.step, hc, and_self]

theorem step_from_dlpack_other (m : Interp) (k h : Nat) (hne : k ≠ h) :
    (m.step (.from_dlpack k)).capsule h = m.capsule h ∧
      (m.step (.from_dlpack k)).objs.length = m.objs.length := by
  cases hc : m.capsule k with
  | none => rw [(step_dead m k hc).1]; exact ⟨rfl, rfl⟩
  | some c =>
    rw [step_from_dlpack_live m k c hc]
    simp [Interp.capsule, List.getElem?_set_ne hne]

theorem step_destroy_other (m : Interp) (k h : Nat) (hne : k ≠ h) :
    (m.step (.destroy k)).capsule h = m.capsule h ∧
      (m.step (.destroy k)).objs.length = m.objs.length := by
  cases hc : m.capsule k with
  | none => rw [(step_dead m k hc).2]; exact ⟨rfl, rfl⟩
  | some c =>
    rw [step_destroy_live m k c hc]
    simp [Interp.capsule, List.getElem?_set_ne hne]

theorem step_from_dlpack_same (m : Interp) (h : Nat) (c : PyCapsule)
    (hc : m.capsule h = some c) :
    (m.step (.from_dlpack h)).capsule h = some (from_dlpack c m.state).capsule ∧
      (m.step (.from_dlpack h)).state = (from_dlpack c m.state).state ∧
      (m.step (.from_dlpack h)).objs.length = m.objs.length := by
  have hlt := capsule_of_live m h c hc
  rw [step_from_dlpack_live m h c hc]
  simp [Interp.capsule, List.getElem?_set_self hlt]

theorem step_destroy_same (m : Interp) (h : Nat) (c : PyCapsule)
    (hc : m.capsule h = some c) :
    (m.step (.destroy h)).capsule h = none ∧
      (m.step (.destroy h)).state = capsule_dealloc c m.state ∧
      (m.step (.destroy h)).objs.length = m.objs.length := by
  have hlt := capsule_of_live m h c hc
  rw [step_destroy_live m h c hc]
  simp [Interp.capsule, List.getElem?_set_self hlt]

theorem step_to_dlpack_new (m : Interp) (t : Tensor) (d : DLManagedTensor)
    (hd : t.ToDLPack.1 = .ok d) :
    m.step (.to_dlpack t) = ⟨m.objs ++ [some (unused_capsule d)], m.state⟩ := by
  simp only [Interp.step, to_dlpack_owner t d m.state hd]

theorem step_untouched (m : Interp) (op : Op) (k : Nat) (c : PyCapsule)
    (hc : m.capsule k = some c) (hf : op ≠ .from_dlpack k) (hx : op ≠ .destroy k) :
    (m.step op).capsule k = some c := by
  cases op with
  | to_dlpack t => rw [(step_to_dlpack_capsule m t k (capsule_of_live m k c hc)).1, hc]
  | from_dlpack h =>
    have hne : h ≠ k := fun e => hf (by rw [e])
    rw [(step_from_dlpack_other m h k hne).1, hc]
  | destroy h =>
    have hne : h ≠ k := fun e => hx (by rw [e])
    rw [(step_destroy_other m h k hne).1, hc]

theorem run_untouched (k : Nat) (c : PyCapsule) (ops : List Op) :
    ∀ m : Interp, m.capsule k = some c →
      (∀ op ∈ ops, op ≠ .from_dlpack k ∧ op ≠ .destroy k) →
      (m.run ops).capsule k = some c := by
  induction ops with
  | nil => intro m hc _; exact hc
  | cons op rest ih =>
    intro m hc hall
    have h1 := hall op (List.mem_cons_self op rest)
    exact ih (m.step op) (step_untouched m op k c hc h1.1 h1.2)
      (fun o ho => hall o (List.mem_cons_of_mem op ho))

theorem exchange_handle_unused (d : DLManagedTensor) : exchange_handle (unused_capsule d) :=
  ⟨rfl, Or.inl rfl⟩

theorem from_dlpack_exchange_handle (c : PyCapsule) (s : PyState) (hc : exchange_handle c) :
    (from_dlpack c s).capsule = { c with name := some "used_tensor" } ∧
      (from_dlpack c s).state.deleted = s.deleted ∧
      exchange_handle (from_dlpack c s).capsule := by
  obtain ⟨hp, _⟩ := hc
  obtain ⟨d, hptr⟩ := Option.isSome_iff_exists.mp hp
  rw [from_dlpack_legal c d s hptr]
  exact ⟨rfl, rfl, hp, Or.inr rfl⟩

theorem step_exchange_handle (m : Interp) (op : Op)
    (hm : ∀ h c, m.capsule h = some c → exchange_handle c) :
    ∀ h c, (m.step op).capsule h = some c → exchange_handle c := by
  intro h c hc
  cases op with
  | to_dlpack t =>
    rcases Nat.lt_or_ge h m.objs.length with hlt | hge
    · rw [(step_to_dlpack_capsule m t h hlt).1] at hc
      exact hm h c hc
    · rcases to_dlpack_result t m.state with ⟨d, hr⟩ | ⟨e, hr⟩
      · have hs : m.step (.to_dlpack t) = ⟨m.objs ++ [some (unused_capsule d)],
            (to_dlpack t m.state).state⟩ := by
          simp only [Interp.step, hr]
        rw [hs] at hc
        have hlen := capsule_of_live _ h c hc
        simp only [List.length_append, List.length_singleton] at hlen
        have he : h = m.objs.length := by omega
        subst he
        simp [Interp.capsule] at hc
        rw [← hc]
        exact exchange_handle_unused d
      · have hs : m.step (.to_dlpack t) = ⟨m.objs, (to_dlpack t m.state).state⟩ := by
          simp only [Interp.step, hr]
        rw [hs] at hc
        exact hm h c hc
  | from_dlpack k =>
    by_cases hk : k = h
    · subst hk
      cases hl : m.capsule k with
      | none => rw [(step_dead m k hl).1] at hc; exact hm k c hc
      | some c0 =>
        rw [(step_from_dlpack_same m k c0 hl).1] at hc
        cases hc
        exact (from_dlpack_exchange_handle c0 m.state (hm k c0 hl)).2.2
    · rw [(step_from_dlpack_other m k h hk).1] at hc
      exact hm h c hc
  | destroy k =>
    by_cases hk : k = h
    · subst hk
      cases hl : m.capsule k with
      | none => rw [(step_dead m k hl).2] at hc; exact hm k c hc
      | some c0 =>
        rw [(step_destroy_same m k c0 hl).1] at hc
        cases hc
    · rw [(step_destroy_other m k h hk).1] at hc
      exact hm h c hc

theorem run_exchange_handle (ops : List Op) :
    ∀ m : Interp, (∀ h c, m.capsule h = some c → exchange_handle c) →
      ∀ h c, (m.run ops).capsule h = some c → exchange_handle c := by
  induction ops with
  | nil => intro m hm; exact hm
  | cons op rest ih => intro m hm; exact ih (m.step op) (step_exchange_handle m op hm)

theorem from_dlpack_keeps_used (c : PyCapsule) (s : PyState)
    (hn : c.name = some "used_tensor") :
    (from_dlpack c s).capsule.name = some "used_tensor" := by
  cases hp : c.pointer with
  | none => rw [(from_dlpack_illegal c s hp).1, hn]
  | some d => rw [from_dlpack_legal c d s hp]

theorem step_spent (m : Interp) (op : Op) (h : Nat) (hs : spent m h) :
    spent (m.step op) h := by
  obtain ⟨hlt, hu⟩ := hs
  cases op with
  | to_dlpack t =>
    obtain ⟨hc, hl⟩ := step_to_dlpack_capsule m t h hlt
    exact ⟨hl, fun c h1 => hu c (by rw [← hc]; exact h1)⟩
  | from_dlpack k =>
    by_cases hk : k = h
    · subst hk
      cases hl : m.capsule k with
      | none => rw [(step_dead m k hl).1]; exact ⟨hlt, hu⟩
      | some c0 =>
        obtain ⟨hc, _, hlen⟩ := step_from_dlpack_same m k c0 hl
        refine ⟨by rw [hlen]; exact hlt, fun c h1 => ?_⟩
        rw [hc] at h1
        cases h1
        exact from_dlpack_keeps_used c0 m.state (hu c0 hl)
    · obtain ⟨hc, hlen⟩ := step_from_dlpack_other m k h hk
      exact ⟨by rw [hlen]; exact hlt, fun c h1 => hu c (by rw [← hc]; exact h1)⟩
  | destroy k =>
    by_cases hk : k = h
    · subst hk
      cases hl : m.capsule k with
      | none => rw [(step_dead m k hl).2]; exact ⟨hlt, hu⟩
      | some c0 =>
        obtain ⟨hc, _, hlen⟩ := step_destroy_same m k c0 hl
        refine ⟨by rw [hlen]; exact hlt, fun c h1 => ?_⟩
        rw [hc] at h1
        cases h1
    · obtain ⟨hc, hlen⟩ := step_destroy_other m k h hk
      exact ⟨by rw [hlen]; exact hlt, fun c h1 => hu c (by rw [← hc]; exact h1)⟩

theorem run_spent (ops : List Op) (h : Nat) :
    ∀ m : Interp, spent m h → spent (m.run ops) h := by
  induction ops with
  | nil => intro m hs; exact hs
  | cons op rest ih => intro m hs; exact ih (m.step op) (step_spent m op h hs)

theorem destroy_spent (m : Interp) (h : Nat) (hs : spent m h) :
    (m.step (.destroy h)).state.deleted = m.state.deleted := by
  cases hl : m.capsule h with
  | none => rw [(step_dead m h hl).2]
  | some c =>
    rw [(step_destroy_same m h c hl).2.1]
    have hn : c.name ≠ some "dltensor" := by
      rw [hs.2 c hl]
      decide
    unfold capsule_dealloc
    cases hd : c.destructor with
    | none => rfl
    | some x =>
      cases x
      show (DLPack_Capsule_Destructor c m.state).deleted = _
      rw [destructor_consumed c m.state hn]

/-! ## Properties of the binding -/

/-- C1 (the code at the failing input): an unused handle holding a supported
descriptor is imported once, and the handle is then tagged used; a second call
of `from_dlpack` on that same handle does not fail: it returns a second Tensor
that owns the same descriptor, and once both Tensors are destroyed the
descriptor's deleter has run twice. -/
theorem from_dlpack_second_import_succeeds :
    (from_dlpack (unused_capsule float32_descriptor) quiet).result
        = .ok ⟨some float32_descriptor⟩ ∧
      (from_dlpack (unused_capsule float32_descriptor) quiet).capsule.name
        = some "used_tensor" ∧
      (from_dlpack (from_dlpack (unused_capsule float32_descriptor) quiet).capsule
          (from_dlpack (unused_capsule float32_descriptor) quiet).state).result
        = .ok ⟨some float32_descriptor⟩ ∧
      (Tensor.destroy ⟨some float32_descriptor⟩
          (Tensor.destroy ⟨some float32_descriptor⟩
            (from_dlpack (from_dlpack (unused_capsule float32_descriptor) quiet).capsule
              (from_dlpack (unused_capsule float32_descriptor) quiet).state).state)).deleted
        = [float32_descriptor, float32_descriptor] :=
  ⟨rfl, rfl, rfl, rfl⟩

/-- C2: importing an unused handle that holds the descriptor `d` leaves the
handle tagged "used_tensor", not "dltensor", still holding `d`; what the call
returns is what constructing a Tensor from `d` gives, so a Tensor it returns
owns exactly `d`; and whenever `DLPack_Capsule_Destructor` later runs on that
handle it invokes no deleter and leaves no error pending. -/
theorem from_dlpack_hands_off_ownership (h : PyCapsule) (d : DLManagedTensor)
    (s later : PyState) (hd : h.pointer = some d) (hn : h.name = some "dltensor") :
    (from_dlpack h s).capsule.name = some "used_tensor" ∧
      (from_dlpack h s).capsule.name ≠ some "dltensor" ∧
      (from_dlpack h s).capsule.name ≠ h.name ∧
      (from_dlpack h s).capsule.pointer = some d ∧
      (from_dlpack h s).result = Tensor.ImportExternal d ∧
      (∀ t, (from_dlpack h s).result = .ok t → t.tensor_ = some d) ∧
      (DLPack_Capsule_Destructor (from_dlpack h s).capsule later).deleted = later.deleted ∧
      (DLPack_Capsule_Destructor (from_dlpack h s).capsule later).err = false := by
  have hu : (from_dlpack h s).capsule.name ≠ some "dltensor" := by
    rw [from_dlpack_legal h d s hd]
    show (some "used_tensor" : Option String) ≠ some "dltensor"
    decide
  rw [destructor_consumed _ later hu]
  rw [from_dlpack_legal h d s hd]
  refine ⟨rfl, ?_, ?_, hd, rfl, ?_, rfl, rfl⟩
  · show (some "used_tensor" : Option String) ≠ some "dltensor"
    decide
  · show (some "used_tensor" : Option String) ≠ h.name
    rw [hn]
    decide
  intro t ht
  unfold Tensor.ImportExternal at ht
  split at ht
  · cases ht; rfl
  · cases ht

/-- C2 at a fresh handle on the float32 descriptor. -/
theorem from_dlpack_hands_off_ownership_witness :
    (from_dlpack (unused_capsule float32_descriptor) quiet).capsule.name = some "used_tensor" ∧
      (from_dlpack (unused_capsule float32_descriptor) quiet).result
        = .ok ⟨some float32_descriptor⟩ ∧
      (DLPack_Capsule_Destructor (from_dlpack (unused_capsule float32_descriptor) quiet).capsule
        quiet).deleted = [] :=
  have w := from_dlpack_hands_off_ownership (unused_capsule float32_descriptor)
    float32_descriptor quiet quiet rfl rfl
  ⟨w.1, w.2.2.2.2.1, w.2.2.2.2.2.2.1⟩

/-- C3: when `t.ToDLPack()` returns the descriptor `d`, `to_dlpack(t)` returns
a capsule that holds `d`, is tagged "dltensor" and carries
`DLPack_Capsule_Destructor`; in any interpreter the capsule gets a handle that
no capsule had before, and the capsules behind the other handles are
untouched; and when, after any operations that neither import nor free that
handle, the handle is freed, the deleter is invoked exactly once more, on `d`,
and the handle is dead afterwards. -/
theorem to_dlpack_unconsumed_fires_once (t : Tensor) (d : DLManagedTensor) (m : Interp)
    (ops : List Op) (hd : t.ToDLPack.1 = .ok d)
    (hops : ∀ op ∈ ops, op ≠ .from_dlpack m.objs.length ∧ op ≠ .destroy m.objs.length) :
    (to_dlpack t m.state).result
        = .ok ⟨some d, some "dltensor", some .DLPack_Capsule_Destructor⟩ ∧
      m.capsule m.objs.length = none ∧
      (m.step (.to_dlpack t)).capsule m.objs.length
        = some ⟨some d, some "dltensor", some .DLPack_Capsule_Destructor⟩ ∧
      (∀ h, h ≠ m.objs.length → (m.step (.to_dlpack t)).capsule h = m.capsule h) ∧
      ((((m.step (.to_dlpack t)).run ops).step (.destroy m.objs.length)).state.deleted
        = ((m.step (.to_dlpack t)).run ops).state.deleted ++ [d]) ∧
      (((m.step (.to_dlpack t)).run ops).step (.destroy m.objs.length)).capsule m.objs.length
        = none := by
  have hnew : (m.step (.to_dlpack t)).capsule m.objs.length = some (unused_capsule d) := by
    rw [step_to_dlpack_new m t d hd]
    simp [Interp.capsule]
  have hlive := run_untouched m.objs.length (unused_capsule d) ops _ hnew hops
  have hdes := step_destroy_same _ _ _ hlive
  refine ⟨by rw [to_dlpack_owner t d m.state hd]; rfl, capsule_fresh m, hnew, ?_, ?_, hdes.1⟩
  · intro h hne
    rw [step_to_dlpack_new m t d hd]
    rcases Nat.lt_or_gt_of_ne hne with hlt | hgt
    · simp [Interp.capsule, List.getElem?_append_left hlt]
    · have h1 : (m.objs ++ [some (unused_capsule d)])[h]? = none :=
        List.getElem?_eq_none (by simp; omega)
      have h2 : m.objs[h]? = none := List.getElem?_eq_none (by omega)
      simp [Interp.capsule, h1, h2]
  · rw [hdes.2.1]
    show (DLPack_Capsule_Destructor (unused_capsule d) _).deleted = _
    rw [destructor_unconsumed (unused_capsule d) d _ rfl rfl]
    rfl

/-- C3 in the empty interpreter: the exported handle 0 is freed after another
Tensor was exported and its handle 1 imported. -/
theorem to_dlpack_unconsumed_fires_once_witness :
    ((((Interp.init.step (.to_dlpack ⟨some float32_descriptor⟩)).run
        [.to_dlpack ⟨some float64_descriptor⟩, .from_dlpack 1]).step (.destroy 0)).state.deleted
      = [float32_descriptor]) :=
  (to_dlpack_unconsumed_fires_once ⟨some float32_descriptor⟩ float32_descriptor Interp.init
    [.to_dlpack ⟨some float64_descriptor⟩, .from_dlpack 1] rfl (by decide)).2.2.2.2.1

/-- C4: for a Tensor `t` that owns a descriptor `d` of contiguous 32-bit
floats, `to_dlpack(t)` succeeds with a handle holding `d`, and `from_dlpack`
of that handle succeeds with a Tensor that owns the very same descriptor
(hence the same data pointer, dtype, shape and strides), whose shape and rank
are those of `t`; the handle ends tagged "used_tensor", and no deleter has run,
so the buffer behind the data pointer has not been released. -/
theorem dlpack_round_trip (t : Tensor) (d : DLManagedTensor) (s : PyState)
    (hd : t.tensor_ = some d) (hf : is_float32 d.dtype = true)
    (hc : is_contiguous d = true) :
    ∃ h t2, (to_dlpack t s).result = .ok h ∧ h.pointer = some d ∧
      (from_dlpack h (to_dlpack t s).state).result = .ok t2 ∧
      t2.tensor_ = some d ∧ t2 = t ∧ t2.shape = t.shape ∧ t2.n_dim = t.n_dim ∧
      t2.shape = some d.shape ∧
      (from_dlpack h (to_dlpack t s).state).capsule.name = some "used_tensor" ∧
      (from_dlpack h (to_dlpack t s).state).state.deleted = s.deleted := by
  have ht : t.ToDLPack.1 = .ok d := by simp [Tensor.ToDLPack, hd]
  have ht2 : t = ⟨some d⟩ := by cases t; simp_all
  refine ⟨unused_capsule d, ⟨some d⟩, ?_, rfl, ?_, rfl, ht2.symm, by rw [ht2], by rw [ht2],
    rfl, ?_, ?_⟩
  · rw [to_dlpack_owner t d s ht]
  · rw [from_dlpack_legal (unused_capsule d) d _ rfl]
    simp [Tensor.ImportExternal, hf, hc]
  · rw [from_dlpack_legal (unused_capsule d) d _ rfl]
  · rw [from_dlpack_legal (unused_capsule d) d _ rfl, to_dlpack_owner t d s ht]

/-- C4 at the Tensor that owns the float32 descriptor. -/
theorem dlpack_round_trip_witness :
    ∃ h t2, (to_dlpack ⟨some float32_descriptor⟩ quiet).result = .ok h ∧
      h.pointer = some float32_descriptor ∧
      (from_dlpack h (to_dlpack ⟨some float32_descriptor⟩ quiet).state).result = .ok t2 ∧
      t2.tensor_ = some float32_descriptor ∧ t2 = ⟨some float32_descriptor⟩ ∧
      t2.shape = Tensor.shape ⟨some float32_descriptor⟩ ∧
      t2.n_dim = Tensor.n_dim ⟨some float32_descriptor⟩ ∧
      t2.shape = some [2, 3] ∧
      (from_dlpack h (to_dlpack ⟨some float32_descriptor⟩ quiet).state).capsule.name
        = some "used_tensor" ∧
      (from_dlpack h (to_dlpack ⟨some float32_descriptor⟩ quiet).state).state.deleted = [] :=
  dlpack_round_trip ⟨some float32_descriptor⟩ float32_descriptor quiet rfl (by decide)
    (by decide)

/-- C5: when the descriptor held by a handle has a dtype other than 32-bit
float, or strides of a layout that is not contiguous, `from_dlpack` fails with
InvalidHandle and returns no Tensor. -/
theorem from_dlpack_rejects_unsupported (h : PyCapsule) (d : DLManagedTensor) (s : PyState)
    (hd : h.pointer = some d)
    (hbad : is_float32 d.dtype = false ∨ is_contiguous d = false) :
    (from_dlpack h s).result = .error .InvalidHandle ∧
      ∀ t, (from_dlpack h s).result ≠ .ok t := by
  have hr : (from_dlpack h s).result = .error .InvalidHandle := by
    rw [from_dlpack_legal h d s hd]
    rcases hbad with hb | hb <;> simp [Tensor.ImportExternal, hb]
  refine ⟨hr, ?_⟩
  intro t ht
  rw [hr] at ht
  cases ht

/-- C5 at a float64 descriptor and at a column-major float32 descriptor. -/
theorem from_dlpack_rejects_unsupported_witness :
    (from_dlpack (unused_capsule float64_descriptor) quiet).result = .error .InvalidHandle ∧
      (from_dlpack (unused_capsule transposed_descriptor) quiet).result
        = .error .InvalidHandle :=
  ⟨(from_dlpack_rejects_unsupported (unused_capsule float64_descriptor) float64_descriptor
      quiet rfl (Or.inl (by decide))).1,
    (from_dlpack_rejects_unsupported (unused_capsule transposed_descriptor)
      transposed_descriptor quiet rfl (Or.inr (by decide))).1⟩

/-- C6 (the code at the failing input): importing an unused handle whose
descriptor the Tensor constructor rejects fails, so no Tensor takes ownership
of the descriptor, yet the handle is left tagged "used_tensor"; when the handle
is then freed its destructor invokes no deleter, and the descriptor is never
released. -/
theorem from_dlpack_failure_marks_used :
    (unused_capsule float64_descriptor).name = some "dltensor" ∧
      (from_dlpack (unused_capsule float64_descriptor) quiet).result
        = .error .InvalidHandle ∧
      (from_dlpack (unused_capsule float64_descriptor) quiet).capsule.name
        = some "used_tensor" ∧
      (capsule_dealloc (from_dlpack (unused_capsule float64_descriptor) quiet).capsule
        (from_dlpack (unused_capsule float64_descriptor) quiet).state).deleted = [] :=
  ⟨rfl, rfl, rfl, rfl⟩

/-- C7: each of the five constructor lambdas hands every weight and bias
Tensor it was given to the native constructor as an rvalue (the object itself,
free to be moved from, so never a copy), once, at the position it was declared
at, and hands the scalar configuration on unchanged: whatever the native
constructor is, the lambda returns what that constructor returns on exactly
this argument list. -/
theorem layer_constructors_forward_in_order {L : Type}
    (a b c d e f g h i j : Tensor) (dropout_rate : CFloat) (num_attention_heads : Int) :
    (∀ native : RValue Tensor → RValue Tensor → RValue Tensor → RValue Tensor →
        RValue Tensor → CFloat → L,
      BERTEmbedding.__init__ native a b c d e dropout_rate
        = native ⟨a⟩ ⟨b⟩ ⟨c⟩ ⟨d⟩ ⟨e⟩ dropout_rate) ∧
    (∀ native : RValue Tensor → RValue Tensor → RValue Tensor → RValue Tensor →
        RValue Tensor → RValue Tensor → RValue Tensor → RValue Tensor → RValue Tensor →
        RValue Tensor → Int → L,
      BertAttention.__init__ native a b c d e f g h i j num_attention_heads
        = native ⟨a⟩ ⟨b⟩ ⟨c⟩ ⟨d⟩ ⟨e⟩ ⟨f⟩ ⟨g⟩ ⟨h⟩ ⟨i⟩ ⟨j⟩ num_attention_heads) ∧
    (∀ native : RValue Tensor → RValue Tensor → RValue Tensor → RValue Tensor →
        RValue Tensor → RValue Tensor → Int → L,
      BertSelfAttention.__init__ native a b c d e f num_attention_heads
        = native ⟨a⟩ ⟨b⟩ ⟨c⟩ ⟨d⟩ ⟨e⟩ ⟨f⟩ num_attention_heads) ∧
    (∀ native : RValue Tensor → RValue Tensor → L,
      BertIntermediate.__init__ native a b = native ⟨a⟩ ⟨b⟩) ∧
    (∀ native : RValue Tensor → RValue Tensor → RValue Tensor → RValue Tensor → L,
      BertOutput.__init__ native a b c d = native ⟨a⟩ ⟨b⟩ ⟨c⟩ ⟨d⟩) :=
  ⟨fun _ => rfl, fun _ => rfl, fun _ => rfl, fun _ => rfl, fun _ => rfl⟩

/-- C8: every `__call__` lambda hands the caller's own Tensors and the layer
on to the native call operator and returns what that operator leaves; so with
a native operator that borrows its inputs, after the call every input Tensor
and the layer are what they were, the result is the value the layer's function
computes from them, and a second call on the same objects gives the same
result. -/
theorem layer_call_borrows_inputs {L R : Type} (self : L) (x y z : Tensor)
    (f1 : L → Tensor → R) (f2 : L → Tensor → Tensor → R)
    (f3 : L → Tensor → Tensor → Tensor → R) :
    (BERTEmbedding.__call__ (borrowing3 f3) self x y z = ⟨f3 self x y z, self, [x, y, z]⟩ ∧
      BertAttention.__call__ (borrowing3 f3) self x y z = ⟨f3 self x y z, self, [x, y, z]⟩ ∧
      BertSelfAttention.__call__ (borrowing3 f3) self x y z
        = ⟨f3 self x y z, self, [x, y, z]⟩ ∧
      BertIntermediate.__call__ (borrowing1 f1) self x = ⟨f1 self x, self, [x]⟩ ∧
      BertOutput.__call__ (borrowing2 f2) self x y = ⟨f2 self x y, self, [x, y]⟩) ∧
    ((BERTEmbedding.__call__ (borrowing3 f3)
          (BERTEmbedding.__call__ (borrowing3 f3) self x y z).self x y z).result
        = (BERTEmbedding.__call__ (borrowing3 f3) self x y z).result ∧
      (BertAttention.__call__ (borrowing3 f3)
          (BertAttention.__call__ (borrowing3 f3) self x y z).self x y z).result
        = (BertAttention.__call__ (borrowing3 f3) self x y z).result ∧
      (BertSelfAttention.__call__ (borrowing3 f3)
          (BertSelfAttention.__call__ (borrowing3 f3) self x y z).self x y z).result
        = (BertSelfAttention.__call__ (borrowing3 f3) self x y z).result ∧
      (BertIntermediate.__call__ (borrowing1 f1)
          (BertIntermediate.__call__ (borrowing1 f1) self x).self x).result
        = (BertIntermediate.__call__ (borrowing1 f1) self x).result ∧
      (BertOutput.__call__ (borrowing2 f2)
          (BertOutput.__call__ (borrowing2 f2) self x y).self x y).result
        = (BertOutput.__call__ (borrowing2 f2) self x y).result) :=
  ⟨⟨rfl, rfl, rfl, rfl, rfl⟩, ⟨rfl, rfl, rfl, rfl, rfl⟩⟩

/-- C9: the `__call__` lambdas of BertAttention and BertSelfAttention both hand
(input_tensor, attention_mask, head_mask) to the native call operator in that
order, so on one native operator they are the same function; and the two
constructor lambdas hand their last five parameters (dense weight, dense bias,
layer-norm weight, layer-norm bias, num_attention_heads) to the native
constructor in the same order, after six and after two leading Tensors. -/
theorem attention_forms_share_contract {L R : Type}
    (operator_call : L → RValue Tensor → RValue Tensor → RValue Tensor → Outcome L R)
    (rest : RValue Tensor → RValue Tensor → RValue Tensor → RValue Tensor → Int → L)
    (self : L) (input_tensor attention_mask head_mask : Tensor)
    (query_weight query_bias key_weight key_bias value_weight value_bias qkv_weight qkv_bias
      dense_weight dense_bias layer_norm_weight layer_norm_bias : Tensor)
    (num_attention_heads : Int) :
    BertAttention.__call__ operator_call self input_tensor attention_mask head_mask
        = operator_call self ⟨input_tensor⟩ ⟨attention_mask⟩ ⟨head_mask⟩ ∧
      BertSelfAttention.__call__ operator_call self input_tensor attention_mask head_mask
        = operator_call self ⟨input_tensor⟩ ⟨attention_mask⟩ ⟨head_mask⟩ ∧
      BertAttention.__call__ operator_call = BertSelfAttention.__call__ operator_call ∧
      BertAttention.__init__ (fun _ _ _ _ _ _ => rest) query_weight query_bias key_weight
          key_bias value_weight value_bias dense_weight dense_bias layer_norm_weight
          layer_norm_bias num_attention_heads
        = rest ⟨dense_weight⟩ ⟨dense_bias⟩ ⟨layer_norm_weight⟩ ⟨layer_norm_bias⟩
            num_attention_heads ∧
      BertSelfAttention.__init__ (fun _ _ => rest) qkv_weight qkv_bias dense_weight
          dense_bias layer_norm_weight layer_norm_bias num_attention_heads
        = rest ⟨dense_weight⟩ ⟨dense_bias⟩ ⟨layer_norm_weight⟩ ⟨layer_norm_bias⟩
            num_attention_heads :=
  ⟨rfl, rfl, rfl, rfl, rfl⟩

/-- C10: start from any interpreter whose capsules are exchange handles (the
empty one, or one that already holds some).  In every state
that a sequence of binding operations reaches from it, and for every next
operation and every handle: a capsule
that appears behind a handle is tagged "dltensor" and was made by `to_dlpack`;
a live capsule whose tag changes was tagged "dltensor", is now tagged
"used_tensor", and the operation was `from_dlpack` on that handle;
`from_dlpack` on a live handle leaves it tagged "used_tensor"; a capsule tagged
"used_tensor" is tagged "used_tensor" for as long as it lives, whatever
operations follow; and after `from_dlpack` on a live handle, whatever
operations follow, freeing the handle invokes no deleter. -/
theorem handle_tag_only_moves_forward (m0 : Interp) (ops later : List Op) (op : Op) (h : Nat)
    (hm0 : ∀ k c, m0.capsule k = some c → exchange_handle c) :
    (∀ c, (m0.run ops).capsule h = none →
        ((m0.run ops).step op).capsule h = some c →
        c.name = some "dltensor" ∧ ∃ t, op = .to_dlpack t) ∧
      (∀ c c2, (m0.run ops).capsule h = some c →
        ((m0.run ops).step op).capsule h = some c2 → c2.name ≠ c.name →
        op = .from_dlpack h ∧ c.name = some "dltensor" ∧ c2.name = some "used_tensor") ∧
      (∀ c, (m0.run ops).capsule h = some c →
        ∃ c2, ((m0.run ops).step (.from_dlpack h)).capsule h = some c2 ∧
          c2.name = some "used_tensor") ∧
      (∀ c c2, (m0.run ops).capsule h = some c → c.name = some "used_tensor" →
        ((m0.run ops).run later).capsule h = some c2 →
        c2.name = some "used_tensor") ∧
      (∀ c, (m0.run ops).capsule h = some c →
        ((((m0.run ops).step (.from_dlpack h)).run later).step
            (.destroy h)).state.deleted
          = (((m0.run ops).step (.from_dlpack h)).run later).state.deleted) := by
  have hwf := run_exchange_handle ops m0 hm0
  have hwf2 := step_exchange_handle (m0.run ops) op hwf
  have hconsume : ∀ c, (m0.run ops).capsule h = some c →
      spent ((m0.run ops).step (.from_dlpack h)) h := by
    intro c hc
    obtain ⟨h1, _, hlen⟩ := step_from_dlpack_same _ h c hc
    refine ⟨by rw [hlen]; exact capsule_of_live _ h c hc, fun c2 h2 => ?_⟩
    rw [h1] at h2
    cases h2
    rw [(from_dlpack_exchange_handle c _ (hwf h c hc)).1]
  refine ⟨?_, ?_, ?_, ?_, ?_⟩
  · intro c hdead hnew
    have hop : ∃ t, op = .to_dlpack t := by
      cases op with
      | to_dlpack t => exact ⟨t, rfl⟩
      | from_dlpack k =>
        by_cases hk : k = h
        · subst hk; rw [(step_dead _ k hdead).1, hdead] at hnew; cases hnew
        · rw [(step_from_dlpack_other _ k h hk).1, hdead] at hnew; cases hnew
      | destroy k =>
        by_cases hk : k = h
        · subst hk; rw [(step_dead _ k hdead).2, hdead] at hnew; cases hnew
        · rw [(step_destroy_other _ k h hk).1, hdead] at hnew; cases hnew
    refine ⟨?_, hop⟩
    obtain ⟨t, rfl⟩ := hop
    rcases Nat.lt_or_ge h (m0.run ops).objs.length with hlt | hge
    · rcases (hwf2 h c hnew).2 with hn | hn
      · exact hn
      · rw [(step_to_dlpack_capsule _ t h hlt).1, hdead] at hnew; cases hnew
    · rcases to_dlpack_result t (m0.run ops).state with ⟨d, hr⟩ | ⟨e, hr⟩
      · have hs : (m0.run ops).step (.to_dlpack t)
            = ⟨(m0.run ops).objs ++ [some (unused_capsule d)],
                (to_dlpack t (m0.run ops).state).state⟩ := by
          simp only [Interp.step, hr]
        rw [hs] at hnew
        have hlen := capsule_of_live _ h c hnew
        simp only [List.length_append, List.length_singleton] at hlen
        have he : h = (m0.run ops).objs.length := by omega
        subst he
        simp [Interp.capsule] at hnew
        rw [← hnew]
        rfl
      · have hs : (m0.run ops).step (.to_dlpack t)
            = ⟨(m0.run ops).objs, (to_dlpack t (m0.run ops).state).state⟩ := by
          simp only [Interp.step, hr]
        rw [hs] at hnew
        have : (m0.run ops).capsule h = some c := hnew
        rw [hdead] at this
        cases this
  · intro c c2 hc hc2 hne
    cases op with
    | to_dlpack t =>
      rw [(step_to_dlpack_capsule _ t h (capsule_of_live _ h c hc)).1, hc] at hc2
      cases hc2
      exact absurd rfl hne
    | from_dlpack k =>
      by_cases hk : k = h
      · subst hk
        rw [(step_from_dlpack_same _ k c hc).1] at hc2
        cases hc2
        have hused : (from_dlpack c (m0.run ops).state).capsule.name
            = some "used_tensor" := by
          rw [(from_dlpack_exchange_handle c _ (hwf k c hc)).1]
        refine ⟨rfl, ?_, hused⟩
        rcases (hwf k c hc).2 with hn | hn
        · exact hn
        · rw [hused, hn] at hne
          exact absurd rfl hne
      · rw [(step_from_dlpack_other _ k h hk).1, hc] at hc2
        cases hc2
        exact absurd rfl hne
    | destroy k =>
      by_cases hk : k = h
      · subst hk
        rw [(step_destroy_same _ k c hc).1] at hc2
        cases hc2
      · rw [(step_destroy_other _ k h hk).1, hc] at hc2
        cases hc2
        exact absurd rfl hne
  · intro c hc
    refine ⟨_, (step_from_dlpack_same _ h c hc).1, ?_⟩
    rw [(from_dlpack_exchange_handle c _ (hwf h c hc)).1]
  · intro c c2 hc hn hc2
    have hs : spent (m0.run ops) h :=
      ⟨capsule_of_live _ h c hc, fun c3 h3 => by rw [hc] at h3; cases h3; exact hn⟩
    exact (run_spent later h _ hs).2 c2 hc2
  · intro c hc
    exact destroy_spent _ h (run_spent later h _ (hconsume c hc))

/-- C10 from the empty interpreter: handle 0 is exported, imported twice, and
freed after another export; it stays tagged used and no deleter runs. -/
theorem handle_tag_only_moves_forward_witness :
    (((Interp.init.run [.to_dlpack ⟨some float32_descriptor⟩]).step (.from_dlpack 0)).run
        [.from_dlpack 0, .to_dlpack ⟨some float64_descriptor⟩]).capsule 0
      = some ⟨some float32_descriptor, some "used_tensor", some .DLPack_Capsule_Destructor⟩ ∧
    ((((Interp.init.run [.to_dlpack ⟨some float32_descriptor⟩]).step (.from_dlpack 0)).run
        [.from_dlpack 0, .to_dlpack ⟨some float64_descriptor⟩]).step
          (.destroy 0)).state.deleted = [] :=
  ⟨rfl, (handle_tag_only_moves_forward Interp.init [.to_dlpack ⟨some float32_descriptor⟩]
    [.from_dlpack 0, .to_dlpack ⟨some float64_descriptor⟩] (.destroy 0) 0
    (by intro k c hc; simp [Interp.init, Interp.capsule] at hc)).2.2.2.2
      (unused_capsule float32_descriptor) rfl⟩

end python

end fast_transformers
